import Mathlib

/-!
Verification development for the `pathway` LLM-app example repository.

The repository consists of two pipeline scripts:

* `examples/pipelines/contextless/app.py` — an HTTP query table is mapped by a
  single `select` to a response table `(query_id := pw.this.id, result :=
  model.apply(pw.this.query, ...))`.
* `llm_app/pathway_pipelines/contextful_s3/app.py` — documents are read from
  S3, embedded, indexed in a KNN index; each HTTP query is embedded, the
  `k = 3` nearest documents are retrieved, a prompt is built by `build_prompt`,
  and the chat model's answer is emitted as `(query_id, result)`.

The embedding below models a pathway table row as a framework-assigned `id`
together with a record payload, and each `select` of the source as a function
on rows that keeps the row `id` (the semantics of `select` in the external
framework).  The external collaborators — the chat-completion API, the
embedding API and the KNN index — are oracle parameters; every outbound call
is reified as a record of the arguments the source passes at that call site.
-/

/-- Column types occurring in the declared pathway schemas of this
repository (all declared columns are `str`). -/
inductive PwType where
  | str
  deriving DecidableEq, Repr

/-- A pathway table row: the framework-assigned record id together with the
record payload (the named columns). -/
structure Row (α : Type) where
  id : Nat
  data : α
  deriving DecidableEq, Repr

/-- Semantics of a pathway `select` on one row: build a new payload from the
row id and the old payload; the framework keeps the row id unchanged. -/
def selectRow (f : Nat → α → β) (r : Row α) : Row β :=
  { id := r.id, data := f r.id r.data }

/-- Payload of `QueryInputSchema` (identical in both variants):
`query: str`, `user: str`. -/
structure QueryIn where
  query : String
  user : String
  deriving DecidableEq, Repr

/-- Payload of the response table built by `select(query_id=pw.this.id,
result=model.apply(...))` in both variants. -/
structure ResponseOut where
  query_id : Nat
  result : String
  deriving DecidableEq, Repr

/-- One outbound chat-completion call: the arguments the source passes to
`OpenAIChatGPTModel.apply`. -/
structure ChatCall where
  prompt : String
  locator : String
  temperature : Rat
  max_tokens : Nat
  deriving DecidableEq, Repr

/-- One outbound embedding call: the arguments the source passes to
`OpenAIEmbeddingModel.apply`. -/
structure EmbedCall where
  text : String
  locator : String
  deriving DecidableEq, Repr

/-- An embedding vector produced by the external embedding API (its numeric
contents are opaque to this repository). -/
abbrev Vec := List Int

namespace Contextless

/-- The declared columns of `QueryInputSchema` in
`examples/pipelines/contextless/app.py`. -/
def QueryInputSchema : List (String × PwType) :=
  [("query", PwType.str), ("user", PwType.str)]

/-- The named columns of the `select` that builds the response table in the
contextless `run`. -/
def responseColumns : List String :=
  ["query_id", "result"]

/-- The single `select` of the contextless `run`: `query.select(query_id =
pw.this.id, result = model.apply(pw.this.query, locator=model_locator,
temperature=temperature, max_tokens=max_tokens))`, with the chat API as the
oracle `chat`. -/
def responsesOf (chat : ChatCall → String) (model_locator : String)
    (temperature : Rat) (max_tokens : Nat) (q : Row QueryIn) :
    Row ResponseOut :=
  selectRow
    (fun i r =>
      { query_id := i,
        result := chat
          { prompt := r.query, locator := model_locator,
            temperature := temperature, max_tokens := max_tokens } })
    q

/-- The contextless `run` in a model where the external chat API may fail:
the source wraps no call in a handler, so the monadic bind is the whole
control flow. -/
def responsesExc (chat : ChatCall → Except ε String) (model_locator : String)
    (temperature : Rat) (max_tokens : Nat) (q : Row QueryIn) :
    Except ε (Row ResponseOut) := do
  let r ← chat
    { prompt := q.data.query, locator := model_locator,
      temperature := temperature, max_tokens := max_tokens }
  pure { id := q.id, data := { query_id := q.id, result := r } }

end Contextless

namespace ContextfulS3

/-- The fields of `llm_app.config.Config` that
`llm_app/pathway_pipelines/contextful_s3/app.py` reads (`config.api_key`,
`config.embedder_locator`, `config.embedding_dimension`,
`config.model_locator`, `config.temperature`, `config.max_tokens`,
`config.rest_host`, `config.rest_port`). -/
structure Config where
  api_key : String
  embedder_locator : String
  embedding_dimension : Nat
  model_locator : String
  temperature : Rat
  max_tokens : Nat
  rest_host : String
  rest_port : Nat
  deriving DecidableEq, Repr

/-- The declared columns of `DocumentInputSchema`: a single `doc: str`. -/
def DocumentInputSchema : List (String × PwType) :=
  [("doc", PwType.str)]

/-- The declared columns of `QueryInputSchema` in the contextful variant:
`query: str`, `user: str`. -/
def QueryInputSchema : List (String × PwType) :=
  [("query", PwType.str), ("user", PwType.str)]

/-- The named columns of the `select` that builds the response table in the
contextful `run`. -/
def responseColumns : List String :=
  ["query_id", "result"]

/-- The arguments of the `pw.io.s3.read` call that brings documents into the
contextful pipeline. -/
structure S3ReadArgs where
  path : String
  bucket_name : String
  region : String
  format : String
  schema : List (String × PwType)
  mode : String
  deriving DecidableEq, Repr

/-- The document source of the contextful `run`:
`pw.io.s3.read("llm_demo/data/", aws_s3_settings=AwsS3Settings(bucket_name=
"pathway-examples", region="eu-central-1"), format="json",
schema=DocumentInputSchema, mode="streaming")`. -/
def documentsSource : S3ReadArgs :=
  { path := "llm_demo/data/",
    bucket_name := "pathway-examples",
    region := "eu-central-1",
    format := "json",
    schema := DocumentInputSchema,
    mode := "streaming" }

/-- Payload of `DocumentInputSchema`: `doc: str`. -/
structure DocIn where
  doc : String
  deriving DecidableEq, Repr

/-- Payload of `enriched_documents = documents + documents.select(data =
embedder.apply(text=pw.this.doc, locator=config.embedder_locator))`: the
original `doc` column plus the embedding column `data`. -/
structure DocEnriched where
  doc : String
  data : Vec
  deriving DecidableEq, Repr

/-- The enrichment step on one document row: `documents +
documents.select(data=embedder.apply(text=pw.this.doc,
locator=config.embedder_locator))`, with the embedding API as the oracle
`embed`. -/
def enrichDocument (embed : EmbedCall → Vec) (cfg : Config) (d : Row DocIn) :
    Row DocEnriched :=
  selectRow
    (fun _ r =>
      { doc := r.doc,
        data := embed { text := r.doc, locator := cfg.embedder_locator } })
    d

/-- Payload of the query table after `query += query.select(data =
embedder.apply(text=pw.this.query, locator=config.embedder_locator))`: the
original columns plus the embedding column `data`. -/
structure QueryEmb where
  query : String
  user : String
  data : Vec
  deriving DecidableEq, Repr

/-- The query-embedding step on one query row (`query += query.select(data =
embedder.apply(text=pw.this.query, locator=config.embedder_locator))`). -/
def embedQuery (embed : EmbedCall → Vec) (cfg : Config) (q : Row QueryIn) :
    Row QueryEmb :=
  selectRow
    (fun _ r =>
      { query := r.query, user := r.user,
        data := embed { text := r.query, locator := cfg.embedder_locator } })
    q

/-- Payload of `query_context = index.query(query, k=3).select(pw.this.query,
documents_list=pw.this.result)`. -/
structure QueryContext where
  query : String
  documents_list : List String
  deriving DecidableEq, Repr

/-- The retrieval step on one embedded query row: the KNN index lookup
`index.query(query, k=3)` followed by `.select(pw.this.query,
documents_list=pw.this.result)`.  The external index is the oracle
`indexQuery`, taking the query embedding and `k`; the source fixes `k` to
`3`. -/
def queryContext (indexQuery : Vec → Nat → List String) (q : Row QueryEmb) :
    Row QueryContext :=
  selectRow
    (fun _ r => { query := r.query, documents_list := indexQuery r.data 3 })
    q

/-- Python `sep.join(xs)`: the elements of `xs` joined with `sep` between
consecutive elements. -/
def pyJoin (sep : String) : List String → String
  | [] => ""
  | [x] => x
  | x :: y :: xs => x ++ sep ++ pyJoin sep (y :: xs)

/-- The `build_prompt` udf of the contextful `run`:
`docs_str = "\n".join(documents)` and the f-string
`f"Given the following documents : \n {docs_str} \nanswer this query:
{query}"`. -/
def build_prompt (documents : List String) (query : String) : String :=
  let docs_str := pyJoin "\n" documents
  "Given the following documents : \n " ++ docs_str
    ++ " \nanswer this query: " ++ query

/-- Payload of `prompt = query_context.select(prompt =
build_prompt(pw.this.documents_list, pw.this.query))`. -/
structure PromptRow where
  prompt : String
  deriving DecidableEq, Repr

/-- The prompt-building step on one query-context row. -/
def promptOf (q : Row QueryContext) : Row PromptRow :=
  selectRow
    (fun _ r => { prompt := build_prompt r.documents_list r.query })
    q

/-- The final step on one prompt row: `prompt.select(query_id=pw.this.id,
result=model.apply(pw.this.prompt, locator=config.model_locator,
temperature=config.temperature, max_tokens=config.max_tokens))`. -/
def responsesOf (chat : ChatCall → String) (cfg : Config) (p : Row PromptRow) :
    Row ResponseOut :=
  selectRow
    (fun i r =>
      { query_id := i,
        result := chat
          { prompt := r.prompt, locator := cfg.model_locator,
            temperature := cfg.temperature, max_tokens := cfg.max_tokens } })
    p

/-- The whole per-query dataflow of the contextful `run`, the composition of
its four steps in source order. -/
def pipeline (embed : EmbedCall → Vec) (indexQuery : Vec → Nat → List String)
    (chat : ChatCall → String) (cfg : Config) (q : Row QueryIn) :
    Row ResponseOut :=
  responsesOf chat cfg
    (promptOf (queryContext indexQuery (embedQuery embed cfg q)))

/-- The per-query dataflow of the contextful `run` in a model where the two
external API calls may fail: the source wraps no call in a handler, so the
monadic binds are the whole control flow. -/
def pipelineExc (embed : EmbedCall → Except ε Vec)
    (indexQuery : Vec → Nat → List String)
    (chat : ChatCall → Except ε String) (cfg : Config) (q : Row QueryIn) :
    Except ε (Row ResponseOut) := do
  let v ← embed { text := q.data.query, locator := cfg.embedder_locator }
  let ctx := queryContext indexQuery
    ⟨q.id, { query := q.data.query, user := q.data.user, data := v }⟩
  let p := promptOf ctx
  let r ← chat
    { prompt := p.data.prompt, locator := cfg.model_locator,
      temperature := cfg.temperature, max_tokens := cfg.max_tokens }
  pure { id := q.id, data := { query_id := q.id, result := r } }

end ContextfulS3

/-! ### Helper lemmas -/

/-- The part of a Python join after its first element: each remaining element
prefixed by the separator. -/
def tailJoin (sep : String) : List String → String
  | [] => ""
  | x :: xs => sep ++ x ++ tailJoin sep xs

lemma pyJoin_cons_eq (sep x : String) (xs : List String) :
    ContextfulS3.pyJoin sep (x :: xs) = x ++ tailJoin sep xs := by
  induction xs generalizing x with
  | nil => simp [ContextfulS3.pyJoin, tailJoin]
  | cons y ys ih =>
      simp only [ContextfulS3.pyJoin, tailJoin, ih y, String.append_assoc]

lemma intercalate_go_eq (sep : String) (xs : List String) (acc : String) :
    String.intercalate.go acc sep xs = acc ++ tailJoin sep xs := by
  induction xs generalizing acc with
  | nil => simp [String.intercalate.go, tailJoin]
  | cons y ys ih =>
      simp only [String.intercalate.go, tailJoin, ih, String.append_assoc]

lemma exceptBind_ok (a : α) (f : α → Except ε β) :
    (Except.ok a : Except ε α) >>= f = f a := rfl

lemma exceptBind_error (e : ε) (f : α → Except ε β) :
    (Except.error e : Except ε α) >>= f = Except.error e := rfl

lemma exceptMap_error (e : ε) (f : α → β) :
    f <$> (Except.error e : Except ε α) = (Except.error e : Except ε β) := rfl

lemma pyJoin_eq_intercalate (sep : String) (xs : List String) :
    ContextfulS3.pyJoin sep xs = String.intercalate sep xs := by
  cases xs with
  | nil => rfl
  | cons x xs =>
      rw [pyJoin_cons_eq]
      show x ++ tailJoin sep xs = String.intercalate.go x sep xs
      rw [intercalate_go_eq]

/-! ### Claim theorems -/

/-- C1: for every input query record, given a fixed external API response,
the `query_id` field of the response record equals the framework-assigned
`id` of the incoming query record — in the contextless variant directly, and
in the contextful variant through the embedding, index-lookup and
prompt-building steps. -/
theorem query_id_matches_input_id :
    (∀ (chat : ChatCall → String) (loc : String) (temp : Rat) (mt : Nat)
        (q : Row QueryIn),
        (Contextless.responsesOf chat loc temp mt q).data.query_id = q.id)
    ∧ (∀ (embed : EmbedCall → Vec) (indexQuery : Vec → Nat → List String)
        (chat : ChatCall → String) (cfg : ContextfulS3.Config)
        (q : Row QueryIn),
        (ContextfulS3.pipeline embed indexQuery chat cfg q).data.query_id
          = q.id) :=
  ⟨fun _ _ _ _ _ => rfl, fun _ _ _ _ _ => rfl⟩

/-- C2: in the contextless variant the emitted response row is exactly the
input row's id together with the chat model applied directly to the record's
`query` text at the configured parameters — no other transformation is
interposed between the input and output connectors. -/
theorem contextless_result_is_direct_model_call
    (chat : ChatCall → String) (loc : String) (temp : Rat) (mt : Nat)
    (q : Row QueryIn) :
    Contextless.responsesOf chat loc temp mt q
      = { id := q.id,
          data :=
            { query_id := q.id,
              result := chat
                { prompt := q.data.query, locator := loc,
                  temperature := temp, max_tokens := mt } } } :=
  rfl

/-- C3: in both variants the inbound HTTP query schema declares exactly the
two fields `query` (text) and `user`, in that order, and nothing else. -/
theorem query_schema_exactly_two_fields :
    Contextless.QueryInputSchema
        = [("query", PwType.str), ("user", PwType.str)]
    ∧ ContextfulS3.QueryInputSchema
        = [("query", PwType.str), ("user", PwType.str)]
    ∧ Contextless.QueryInputSchema.length = 2
    ∧ ContextfulS3.QueryInputSchema.length = 2 :=
  ⟨rfl, rfl, rfl, rfl⟩

/-- C4: in the contextful variant documents are read from the external S3
bucket `pathway-examples` in the framework's newline-delimited JSON format
(`format="json"`), and the declared document schema has exactly the single
raw-text field `doc`. -/
theorem documents_source_shape :
    ContextfulS3.documentsSource.format = "json"
    ∧ ContextfulS3.documentsSource.bucket_name = "pathway-examples"
    ∧ ContextfulS3.documentsSource.schema = [("doc", PwType.str)]
    ∧ ContextfulS3.DocumentInputSchema.length = 1 :=
  ⟨rfl, rfl, rfl, rfl⟩

/-- C5: in both variants the response table is built with exactly the two
named columns `query_id` and `result`, and a response payload is fully
determined by those two fields. -/
theorem response_record_exactly_two_fields :
    Contextless.responseColumns = ["query_id", "result"]
    ∧ ContextfulS3.responseColumns = ["query_id", "result"]
    ∧ ∀ r : ResponseOut, r = { query_id := r.query_id, result := r.result } :=
  ⟨rfl, rfl, fun _ => rfl⟩

/-- C6: every outbound chat-completion call of either variant carries the
configured model locator, temperature and max-token count, and every
outbound embedding call of the contextful variant (documents and queries)
carries the configured embedder locator: replacing the external APIs by ones
that agree only on calls with those parameters cannot change any pipeline
output. -/
theorem outbound_calls_use_configured_parameters
    (chat chat' : ChatCall → String) (embed embed' : EmbedCall → Vec)
    (indexQuery : Vec → Nat → List String) (cfg : ContextfulS3.Config)
    (loc : String) (temp : Rat) (mt : Nat)
    (hchat : ∀ c : ChatCall, c.locator = loc → c.temperature = temp →
      c.max_tokens = mt → chat c = chat' c)
    (hchatCfg : ∀ c : ChatCall, c.locator = cfg.model_locator →
      c.temperature = cfg.temperature → c.max_tokens = cfg.max_tokens →
      chat c = chat' c)
    (hembed : ∀ c : EmbedCall, c.locator = cfg.embedder_locator →
      embed c = embed' c) :
    (∀ q : Row QueryIn,
        Contextless.responsesOf chat loc temp mt q
          = Contextless.responsesOf chat' loc temp mt q)
    ∧ (∀ d : Row ContextfulS3.DocIn,
        ContextfulS3.enrichDocument embed cfg d
          = ContextfulS3.enrichDocument embed' cfg d)
    ∧ (∀ q : Row QueryIn,
        ContextfulS3.pipeline embed indexQuery chat cfg q
          = ContextfulS3.pipeline embed' indexQuery chat' cfg q) := by
  refine ⟨fun q => ?_, fun d => ?_, fun q => ?_⟩
  · simp only [Contextless.responsesOf, selectRow]
    rw [hchat _ rfl rfl rfl]
  · simp only [ContextfulS3.enrichDocument, selectRow]
    rw [hembed _ rfl]
  · simp only [ContextfulS3.pipeline, ContextfulS3.responsesOf,
      ContextfulS3.promptOf, ContextfulS3.queryContext,
      ContextfulS3.embedQuery, selectRow]
    rw [hembed _ rfl, hchatCfg _ rfl rfl rfl]

/-- C7: neither `run` contains bespoke failure handling.  In the model where
external calls may fail, (a) on all-successful calls both variants compute
exactly their pure dataflow, and (b) the first failing external call's error
is returned unchanged as the pipeline's outcome — there is no retry, timeout
or partial-failure branch, and no repository-owned state to modify. -/
theorem errors_propagate_unchanged :
    (∀ (ε : Type) (chat : ChatCall → String) (loc : String) (temp : Rat)
        (mt : Nat) (q : Row QueryIn),
        Contextless.responsesExc (ε := ε) (fun c => Except.ok (chat c))
            loc temp mt q
          = Except.ok (Contextless.responsesOf chat loc temp mt q))
    ∧ (∀ (ε : Type) (chat : ChatCall → Except ε String) (loc : String)
        (temp : Rat) (mt : Nat) (q : Row QueryIn) (e : ε),
        chat { prompt := q.data.query, locator := loc, temperature := temp,
               max_tokens := mt } = Except.error e →
        Contextless.responsesExc chat loc temp mt q = Except.error e)
    ∧ (∀ (ε : Type) (embed : EmbedCall → Vec)
        (indexQuery : Vec → Nat → List String) (chat : ChatCall → String)
        (cfg : ContextfulS3.Config) (q : Row QueryIn),
        ContextfulS3.pipelineExc (ε := ε) (fun c => Except.ok (embed c))
            indexQuery (fun c => Except.ok (chat c)) cfg q
          = Except.ok (ContextfulS3.pipeline embed indexQuery chat cfg q))
    ∧ (∀ (ε : Type) (embed : EmbedCall → Except ε Vec)
        (indexQuery : Vec → Nat → List String)
        (chat : ChatCall → Except ε String) (cfg : ContextfulS3.Config)
        (q : Row QueryIn) (e : ε),
        embed { text := q.data.query, locator := cfg.embedder_locator }
            = Except.error e →
        ContextfulS3.pipelineExc embed indexQuery chat cfg q
          = Except.error e)
    ∧ (∀ (ε : Type) (embed : EmbedCall → Except ε Vec)
        (indexQuery : Vec → Nat → List String)
        (chat : ChatCall → Except ε String) (cfg : ContextfulS3.Config)
        (q : Row QueryIn) (v : Vec) (e : ε),
        embed { text := q.data.query, locator := cfg.embedder_locator }
            = Except.ok v →
        chat { prompt := ContextfulS3.build_prompt (indexQuery v 3)
                 q.data.query,
               locator := cfg.model_locator, temperature := cfg.temperature,
               max_tokens := cfg.max_tokens } = Except.error e →
        ContextfulS3.pipelineExc embed indexQuery chat cfg q
          = Except.error e) := by
  refine ⟨fun ε chat loc temp mt q => rfl,
          fun ε chat loc temp mt q e h => ?_,
          fun ε embed indexQuery chat cfg q => rfl,
          fun ε embed indexQuery chat cfg q e h => ?_,
          fun ε embed indexQuery chat cfg q v e h1 h2 => ?_⟩
  · simp only [Contextless.responsesExc, h, exceptBind_error]
  · simp only [ContextfulS3.pipelineExc, h, exceptBind_error]
  · simp only [ContextfulS3.pipelineExc, h1, exceptBind_ok,
      ContextfulS3.promptOf, ContextfulS3.queryContext, selectRow, h2]
    rfl

/-- C8: `build_prompt` is a total function returning exactly the string
`"Given the following documents : \n "`, then the documents joined with the
separator `"\n"`, then `" \nanswer this query: "`, then the query text; on
the empty document list the joined portion is the empty string. -/
theorem build_prompt_exact_format :
    (∀ (documents : List String) (query : String),
        ContextfulS3.build_prompt documents query
          = "Given the following documents : \n "
              ++ String.intercalate "\n" documents
              ++ " \nanswer this query: " ++ query)
    ∧ (∀ query : String,
        ContextfulS3.build_prompt [] query
          = "Given the following documents : \n " ++ ""
              ++ " \nanswer this query: " ++ query) := by
  constructor
  · intro documents query
    simp only [ContextfulS3.build_prompt, pyJoin_eq_intercalate]
  · intro query
    rfl

/-- C9: the `user` field never influences the response: two query records
with equal `query` text and arbitrary (possibly different) `user` fields get
equal `result` strings in both variants, for any fixed external model,
embedder and index. -/
theorem user_field_never_influences_result :
    (∀ (chat : ChatCall → String) (loc : String) (temp : Rat) (mt : Nat)
        (q1 q2 : Row QueryIn), q1.data.query = q2.data.query →
        (Contextless.responsesOf chat loc temp mt q1).data.result
          = (Contextless.responsesOf chat loc temp mt q2).data.result)
    ∧ (∀ (embed : EmbedCall → Vec) (indexQuery : Vec → Nat → List String)
        (chat : ChatCall → String) (cfg : ContextfulS3.Config)
        (q1 q2 : Row QueryIn), q1.data.query = q2.data.query →
        (ContextfulS3.pipeline embed indexQuery chat cfg q1).data.result
          = (ContextfulS3.pipeline embed indexQuery chat cfg q2).data.result) := by
  constructor
  · intro chat loc temp mt q1 q2 h
    simp only [Contextless.responsesOf, selectRow, h]
  · intro embed indexQuery chat cfg q1 q2 h
    simp only [ContextfulS3.pipeline, ContextfulS3.responsesOf,
      ContextfulS3.promptOf, ContextfulS3.queryContext,
      ContextfulS3.embedQuery, selectRow, h]

/-- C10: in the contextful variant every query is answered from exactly the
`k = 3` index lookup: the `documents_list` column is always the index queried
at the embedded query with `k` fixed to `3`, and the chat model is invoked on
the prompt built from precisely that list. -/
theorem retrieval_always_k_three :
    (∀ (indexQuery : Vec → Nat → List String)
        (q : Row ContextfulS3.QueryEmb),
        (ContextfulS3.queryContext indexQuery q).data.documents_list
          = indexQuery q.data.data 3)
    ∧ (∀ (embed : EmbedCall → Vec) (indexQuery : Vec → Nat → List String)
        (chat : ChatCall → String) (cfg : ContextfulS3.Config)
        (q : Row QueryIn),
        (ContextfulS3.pipeline embed indexQuery chat cfg q).data.result
          = chat
            { prompt := ContextfulS3.build_prompt
                (indexQuery
                  (embed { text := q.data.query,
                           locator := cfg.embedder_locator }) 3)
                q.data.query,
              locator := cfg.model_locator,
              temperature := cfg.temperature,
              max_tokens := cfg.max_tokens }) :=
  ⟨fun _ _ => rfl, fun _ _ _ _ _ => rfl⟩

/-! ### Concrete fixtures used by the witnesses -/

/-- A concrete configuration for closed-instance evaluation. -/
def cfgW : ContextfulS3.Config :=
  { api_key := "k", embedder_locator := "emb-small",
    embedding_dimension := 2, model_locator := "gpt-4",
    temperature := 4/5, max_tokens := 60,
    rest_host := "0.0.0.0", rest_port := 8080 }

/-- A concrete query row. -/
def qW : Row QueryIn := { id := 7, data := { query := "how", user := "alice" } }

/-- A second concrete query row with the same query text but another user. -/
def qW2 : Row QueryIn := { id := 8, data := { query := "how", user := "bob" } }

/-- A concrete document row. -/
def dW : Row ContextfulS3.DocIn := { id := 1, data := { doc := "text" } }

/-- A concrete embedding oracle. -/
def embedW : EmbedCall → Vec := fun c => [Int.ofNat c.text.length]

/-- An embedding oracle agreeing with `embedW` only at the configured
embedder locator. -/
def embedW2 : EmbedCall → Vec :=
  fun c => if c.locator = "emb-small" then [Int.ofNat c.text.length] else []

/-- A concrete index oracle. -/
def iqW : Vec → Nat → List String := fun _ k => List.replicate k "doc"

/-- A concrete chat oracle. -/
def chatW : ChatCall → String := fun c => c.prompt

/-- A chat oracle agreeing with `chatW` only at the configured model
locator. -/
def chatW2 : ChatCall → String :=
  fun c => if c.locator = "gpt-4" then c.prompt else ""

/-- A chat oracle that always fails. -/
def chatFailW : ChatCall → Except String String :=
  fun _ => Except.error "api down"

/-- An embedding oracle that always fails. -/
def embedFailW : EmbedCall → Except String Vec :=
  fun _ => Except.error "api down"

/-- An embedding oracle that always succeeds with a fixed vector. -/
def embedOkW : EmbedCall → Except String Vec :=
  fun _ => Except.ok [(3 : Int)]

/-- Witness for C6 at closed inputs: the agreement hypotheses hold for the
concrete oracle pairs, and the three conclusions evaluate. -/
theorem outbound_calls_use_configured_parameters_witness :
    Contextless.responsesOf chatW "gpt-4" (4/5) 60 qW
        = Contextless.responsesOf chatW2 "gpt-4" (4/5) 60 qW
    ∧ ContextfulS3.enrichDocument embedW cfgW dW
        = ContextfulS3.enrichDocument embedW2 cfgW dW
    ∧ ContextfulS3.pipeline embedW iqW chatW cfgW qW
        = ContextfulS3.pipeline embedW2 iqW chatW2 cfgW qW := by
  have h := outbound_calls_use_configured_parameters chatW chatW2 embedW
    embedW2 iqW cfgW "gpt-4" (4/5) 60
    (fun c h1 _ _ => by simp [chatW, chatW2, h1])
    (fun c h1 _ _ => by
      simp only [cfgW] at h1
      simp [chatW, chatW2, h1])
    (fun c h1 => by
      simp only [cfgW] at h1
      simp [embedW, embedW2, h1])
  exact ⟨h.1 qW, h.2.1 dW, h.2.2 qW⟩

/-- Witness for C7 at closed inputs: concrete failing oracles make each
error-propagation hypothesis hold, and the pipelines return exactly that
error. -/
theorem errors_propagate_unchanged_witness :
    Contextless.responsesExc chatFailW "gpt-4" (4/5) 60 qW
        = Except.error "api down"
    ∧ ContextfulS3.pipelineExc embedFailW iqW chatFailW cfgW qW
        = Except.error "api down"
    ∧ ContextfulS3.pipelineExc embedOkW iqW chatFailW cfgW qW
        = Except.error "api down" :=
  ⟨errors_propagate_unchanged.2.1 String chatFailW "gpt-4" (4/5) 60 qW
      "api down" rfl,
   errors_propagate_unchanged.2.2.2.1 String embedFailW iqW chatFailW cfgW qW
      "api down" rfl,
   errors_propagate_unchanged.2.2.2.2 String embedOkW iqW chatFailW cfgW qW
      [(3 : Int)] "api down" rfl rfl⟩

/-- Witness for C9 at closed inputs: two queries with equal text and
different users get equal results in both variants. -/
theorem user_field_never_influences_result_witness :
    (Contextless.responsesOf chatW "gpt-4" (4/5) 60 qW).data.result
        = (Contextless.responsesOf chatW "gpt-4" (4/5) 60 qW2).data.result
    ∧ (ContextfulS3.pipeline embedW iqW chatW cfgW qW).data.result
        = (ContextfulS3.pipeline embedW iqW chatW cfgW qW2).data.result :=
  ⟨user_field_never_influences_result.1 chatW "gpt-4" (4/5) 60 qW qW2 rfl,
   user_field_never_influences_result.2 embedW iqW chatW cfgW qW qW2 rfl⟩
